import Mathlib

/-!
Verification of the YouTube-summarizer application (src/app.py) against its
natural-language specification.  The script's own logic is embedded shallowly:

* `extract_video_id` embeds the regex search of app.py lines 31-42, alternative
  by alternative (including the raw-string quirks: the pattern source
  `youtu\\.be/` demands a literal backslash, and `watch\\?v=` is
  "watch", an optional literal backslash, then "v=").
* The external collaborators (captions API, pytube download, whisper,
  googletrans, gemini) are oracles collected in `Env`.
* `runGenerate` embeds the "Generate Summary" button handler
  (app.py lines 178-224), producing the terminal result, the ordered trace of
  external calls, and whether the temporary audio file is still on disk.
-/

namespace YTApp

/-- Characters of the capture class [A-Za-z0-9_-] in the video-id regular
expression of `extract_video_id` (app.py line 33). -/
def idChar (c : Char) : Bool :=
  ('A' ≤ c && c ≤ 'Z') || ('a' ≤ c && c ≤ 'z') || ('0' ≤ c && c ≤ '9') ||
    c == '_' || c == '-'

/-- A token of the literal part of a regex alternative: a literal character,
or the dot metacharacter (any character except a newline). -/
inductive RTok where
  | lit (c : Char)
  | dot
deriving DecidableEq

/-- Match a token list against the front of the input, returning the remaining
input on success. -/
def matchToks : List RTok → List Char → Option (List Char)
  | [], l => some l
  | _ :: _, [] => none
  | RTok.lit c :: ps, d :: l => if d = c then matchToks ps l else none
  | RTok.dot :: ps, d :: l => if d = '\n' then none else matchToks ps l

/-- The capture group ([A-Za-z0-9_-]\x7b11\x7d): exactly eleven characters of the
class, captured; fails if fewer than eleven characters remain or one of the
eleven is outside the class. -/
def take11 : List Char → Option (List Char)
  | c0 :: c1 :: c2 :: c3 :: c4 :: c5 :: c6 :: c7 :: c8 :: c9 :: c10 :: _ =>
    if [c0, c1, c2, c3, c4, c5, c6, c7, c8, c9, c10].all idChar then
      some [c0, c1, c2, c3, c4, c5, c6, c7, c8, c9, c10]
    else none
  | _ => none

/-- One alternative of the non-capturing group followed by the capture group. -/
def tryAlt (toks : List RTok) (l : List Char) : Option (List Char) :=
  (matchToks toks l).bind take11

/-- First-of on options, mirroring ordered regex alternation. -/
def orO (a b : Option (List Char)) : Option (List Char) :=
  match a with
  | some r => some r
  | none => b

/-- Alternative "v=". -/
def tokVEq : List RTok := [RTok.lit 'v', RTok.lit '=']

/-- Alternative from pattern source youtu\\.be/ : in a raw Python string
this is "youtu", an escaped (literal) backslash, the dot metacharacter,
then "be/". -/
def tokYoutuBe : List RTok :=
  [RTok.lit 'y', RTok.lit 'o', RTok.lit 'u', RTok.lit 't', RTok.lit 'u',
   RTok.lit '\\', RTok.dot, RTok.lit 'b', RTok.lit 'e', RTok.lit '/']

/-- Alternative "embed/". -/
def tokEmbed : List RTok :=
  [RTok.lit 'e', RTok.lit 'm', RTok.lit 'b', RTok.lit 'e', RTok.lit 'd',
   RTok.lit '/']

/-- Alternative "v/". -/
def tokVSlash : List RTok := [RTok.lit 'v', RTok.lit '/']

/-- Alternative from pattern source watch\\?v= : "watch", then an optional
literal backslash (the escaped backslash made optional by the quantifier),
then "v=".  The greedy quantifier first tries to consume the backslash; this
token list is that first branch. -/
def tokWatchBsVEq : List RTok :=
  [RTok.lit 'w', RTok.lit 'a', RTok.lit 't', RTok.lit 'c', RTok.lit 'h',
   RTok.lit '\\', RTok.lit 'v', RTok.lit '=']

/-- Second branch of the watch\\?v= alternative: the optional backslash is
not consumed. -/
def tokWatchVEq : List RTok :=
  [RTok.lit 'w', RTok.lit 'a', RTok.lit 't', RTok.lit 'c', RTok.lit 'h',
   RTok.lit 'v', RTok.lit '=']

/-- Alternative "shorts/". -/
def tokShorts : List RTok :=
  [RTok.lit 's', RTok.lit 'h', RTok.lit 'o', RTok.lit 'r', RTok.lit 't',
   RTok.lit 's', RTok.lit '/']

/-- Alternative "e/". -/
def tokESlash : List RTok := [RTok.lit 'e', RTok.lit '/']

/-- Try the whole pattern at one position: the alternatives of the
non-capturing group in their written order (each followed by the capture
group), and finally the `^` alternative, which matches the empty string but
only at the start of the input. -/
def matchGroupAt (atStart : Bool) (l : List Char) : Option (List Char) :=
  orO (tryAlt tokVEq l)
    (orO (tryAlt tokYoutuBe l)
      (orO (tryAlt tokEmbed l)
        (orO (tryAlt tokVSlash l)
          (orO (tryAlt tokWatchBsVEq l)
            (orO (tryAlt tokWatchVEq l)
              (orO (tryAlt tokShorts l)
                (orO (tryAlt tokESlash l)
                  (if atStart then take11 l else none))))))))

/-- re.search: try the pattern at every position, left to right, and return
the first capture. -/
def searchFrom : Bool → List Char → Option (List Char)
  | atStart, [] => orO (matchGroupAt atStart []) none
  | atStart, c :: rest =>
      orO (matchGroupAt atStart (c :: rest)) (searchFrom false rest)

/-- Embeds `extract_video_id` (app.py lines 31-42): search the pattern in the
URL; on a match return the captured group, otherwise report an invalid URL
(st.error plus returning None, the InvalidUrlError of the spec). -/
def extract_video_id (youtube_url : String) : Option String :=
  match searchFrom true youtube_url.data with
  | some cap => some (String.mk cap)
  | none => none

/-- Outcome of the external captions fetch
(YouTubeTranscriptApi.get_transcript): a list of entry texts on success, the
CouldNotRetrieveTranscript exception, or any other exception. -/
inductive FetchResult where
  | success (entries : List String)
  | couldNotRetrieve
  | otherError
deriving DecidableEq

/-- Oracles for the external collaborators of one run: captions service,
pytube audio download (returning the local path on success), whisper
transcription (the text field of its result, possibly empty), googletrans
(text, source language or None for auto-detect, destination language), and
gemini (the configured API credential and the full prompt string). -/
structure Env where
  captions : String → FetchResult
  download : String → Option String
  whisperText : String → Option String
  translate : String → Option String → String → Option String
  gemini : Option String → String → Option String

/-- One external call made during a run, in order. -/
inductive Event where
  | fetchCaptions (videoId : String)
  | downloadAudio (url : String)
  | whisper (audioPath : String)
  | translate (srcLang destLang : String)
  | summarize (prompt : String)
deriving DecidableEq

/-- Provenance of the acquired transcript. -/
inductive Source where
  | captions
  | localTranscription
deriving DecidableEq

/-- Terminal state of one button-handler run.  Each failure names the st.error
message that stops the run; done carries the displayed summary and the
transcript provenance. -/
inductive RunResult where
  | done (summary : String) (src : Source)
  | failedNoLink
  | failedInvalidUrl
  | failedAudioDownload
  | failedTranscription
  | failedTranslateTranscript
  | failedSummarization
  | failedTranslateSummary
deriving DecidableEq

/-- Result of a run: terminal state, ordered trace of external calls, and
whether the temporary audio file video_audio.mp4 is on disk afterwards. -/
structure RunOutcome where
  result : RunResult
  trace : List Event
  audioFileOnDisk : Bool
deriving DecidableEq

/-- Python truthiness test used by the handler on an optional string:
None and the empty string are falsy, every other string (including
whitespace-only strings) is truthy. -/
def falsy : Option String → Bool
  | none => true
  | some s => s == ""

/-- Embeds `extract_transcript_details` (app.py lines 45-55): join the entry
texts with single spaces on success; on CouldNotRetrieveTranscript warn and
return None; on any other exception show an error and likewise return None. -/
def extract_transcript_details (env : Env) (video_id : String) : Option String :=
  match env.captions video_id with
  | FetchResult.success entries => some (String.intercalate " " entries)
  | FetchResult.couldNotRetrieve => none
  | FetchResult.otherError => none

/-- Embeds `download_audio` (app.py lines 58-66): pytube downloads the first
audio-only stream to the fixed filename video_audio.mp4 and returns its path;
on any exception show an error and return None.  No cleanup of the file is
performed anywhere in the script. -/
def download_audio (env : Env) (youtube_url : String) : Option String :=
  env.download youtube_url

/-- Embeds `process_audio_with_whisper` (app.py lines 69-77): transcribe the
audio with the local whisper model, returning the (possibly empty) text field;
on any exception show an error and return None. -/
def process_audio_with_whisper (env : Env) (audio_path : String) : Option String :=
  env.whisperText audio_path

/-- Python str.lower() on the ASCII language names this script handles,
written with List.map so that it evaluates by reduction. -/
def pyLower (s : String) : String := String.mk (s.data.map Char.toLower)

/-- Embeds `translate_text` (app.py lines 80-93): empty input is rejected
before any external call (st.error, return None - the TranslationError of the
spec); a source language spelled "english" in any case becomes None to request
auto-detection; then the googletrans service is called. -/
def translate_text (env : Env) (text : String) (src_lang : String)
    (dest_lang : String) : Option String :=
  if text = "" then none
  else
    let src : Option String :=
      if pyLower src_lang = "english" then none else some src_lang
    env.translate text src dest_lang

/-- Leading part of `base_prompt` (app.py lines 24-28), up to the point where
the selected format is substituted. -/
def base_prompt_head : String :=
  "\nYou are a YouTube video summarizer. Take the transcript text and summarize \nthe video as per the selected format. Format: "

/-- Trailing part of `base_prompt`, after the substituted format. -/
def base_prompt_tail : String :=
  ".\nPlease provide the summary of the text given here:\n"

/-- base_prompt.format(summary_format=...) of app.py line 165. -/
def base_prompt (summary_format : String) : String :=
  base_prompt_head ++ summary_format ++ base_prompt_tail

/-- `summary_prompt` (app.py line 165): the formatted base prompt followed by
" in N words:". -/
def summary_prompt (summary_format : String) (summary_size : Nat) : String :=
  base_prompt summary_format ++ " in " ++ toString summary_size ++ " words:"

/-- Embeds `generate_genmini_content` (app.py lines 96-103): the hosted model
receives the concatenation prompt + transcript_text; any exception becomes
st.error plus None. -/
def generate_genmini_content (env : Env) (key : Option String)
    (transcript_text : String) (prompt : String) : Option String :=
  env.gemini key (prompt ++ transcript_text)

/-- Embeds module initialization (app.py lines 14-18): load_dotenv, then
genai.configure(api_key=os.getenv("GOOGLE_API_KEY")).  os.getenv returns None
for an absent variable rather than raising, and genai.configure records the
credential for the lazily created client (the google-generativeai library
validates the key only when the first request builds a client), so module
initialization always completes and simply stores the optional credential. -/
def startup (getenv : String → Option String) : Option String :=
  getenv "GOOGLE_API_KEY"

/-- Transcript acquisition of the handler (app.py lines 188-200): if the
captions result is falsy, download the audio (stopping with the audio-download
error if that fails, app.py line 193) and run whisper on it (stopping with the
processing error if its result is falsy, app.py line 199).  Returns either a
terminal outcome or the acquired transcript with its provenance, the trace so
far, and whether video_audio.mp4 was written. -/
def acquireStage (env : Env) (youtube_link : String) (t1 : Option String)
    (tr : List Event) : RunOutcome ⊕ (String × Source × List Event × Bool) :=
  if falsy t1 then
    let tr2 := tr ++ [Event.downloadAudio youtube_link]
    match download_audio env youtube_link with
    | none => Sum.inl ⟨RunResult.failedAudioDownload, tr2, false⟩
    | some audio_path =>
      let t2 := process_audio_with_whisper env audio_path
      let tr3 := tr2 ++ [Event.whisper audio_path]
      if falsy t2 then Sum.inl ⟨RunResult.failedTranscription, tr3, true⟩
      else Sum.inr (t2.getD "", Source.localTranscription, tr3, true)
  else Sum.inr (t1.getD "", Source.captions, tr, false)

/-- Summary generation and optional summary translation of the handler
(app.py lines 209-224). -/
def summaryStage (env : Env) (key : Option String) (summary_language : String)
    (prompt : String) (transcript : String) (src : Source) (tr : List Event)
    (fileOnDisk : Bool) : RunOutcome :=
  let s1 := generate_genmini_content env key transcript prompt
  let tr4 := tr ++ [Event.summarize (prompt ++ transcript)]
  if falsy s1 then ⟨RunResult.failedSummarization, tr4, fileOnDisk⟩
  else
    if summary_language ≠ "English" then
      let s2 := translate_text env (s1.getD "") "en" (pyLower summary_language)
      let tr5 := tr4 ++ [Event.translate "en" (pyLower summary_language)]
      if falsy s2 then ⟨RunResult.failedTranslateSummary, tr5, fileOnDisk⟩
      else ⟨RunResult.done (s2.getD "") src, tr5, fileOnDisk⟩
    else ⟨RunResult.done (s1.getD "") src, tr4, fileOnDisk⟩

/-- Optional transcript translation of the handler (app.py lines 202-207),
followed by the summary stage. -/
def finishStage (env : Env) (key : Option String)
    (video_language summary_language : String) (prompt : String)
    (transcript : String) (src : Source) (tr : List Event)
    (fileOnDisk : Bool) : RunOutcome :=
  if video_language ≠ "English" then
    let t3 := translate_text env transcript (pyLower video_language) "en"
    let tr3 := tr ++ [Event.translate (pyLower video_language) "en"]
    if falsy t3 then ⟨RunResult.failedTranslateTranscript, tr3, fileOnDisk⟩
    else summaryStage env key summary_language prompt (t3.getD "") src tr3 fileOnDisk
  else summaryStage env key summary_language prompt transcript src tr fileOnDisk

/-- Embeds the "Generate Summary" button handler (app.py lines 178-224):
reject an empty link, reject a link without a video id, acquire a transcript
(captions first, audio fallback second), optionally translate it to English,
summarize, optionally translate the summary, and display it. -/
def runGenerate (env : Env) (key : Option String)
    (youtube_link video_language summary_language : String)
    (summary_size : Nat) (summary_format : String) : RunOutcome :=
  if youtube_link = "" then ⟨RunResult.failedNoLink, [], false⟩
  else
    match extract_video_id youtube_link with
    | none => ⟨RunResult.failedInvalidUrl, [], false⟩
    | some video_id =>
      let prompt := summary_prompt summary_format summary_size
      match acquireStage env youtube_link (extract_transcript_details env video_id)
          [Event.fetchCaptions video_id] with
      | Sum.inl out => out
      | Sum.inr (transcript, src, tr, fileOnDisk) =>
          finishStage env key video_language summary_language prompt transcript
            src tr fileOnDisk

/-- True for events that are neither the audio download nor the local
transcription. -/
def notFallbackEvent : Event → Bool
  | Event.downloadAudio _ => false
  | Event.whisper _ => false
  | _ => true

/-- True for events that are not the local transcription. -/
def notWhisperEvent : Event → Bool
  | Event.whisper _ => false
  | _ => true

/-- Concrete oracle: captions succeed with a single entry "hello world";
everything else is inert. -/
def env1 : Env :=
  { captions := fun _ => FetchResult.success ["hello world"]
    download := fun _ => none
    whisperText := fun _ => none
    translate := fun _ _ _ => none
    gemini := fun _ _ => some "sum" }

/-- Concrete oracle: the captions fetch raises an unexpected (non
CouldNotRetrieveTranscript) exception; the audio download and whisper both
succeed, and gemini returns a summary. -/
def env2 : Env :=
  { captions := fun _ => FetchResult.otherError
    download := fun _ => some "video_audio.mp4"
    whisperText := fun _ => some "hi"
    translate := fun _ _ _ => none
    gemini := fun _ _ => some "sum" }

/-- Concrete oracle: captions succeed with a single whitespace-only entry. -/
def env3 : Env :=
  { captions := fun _ => FetchResult.success [" "]
    download := fun _ => none
    whisperText := fun _ => none
    translate := fun _ _ _ => none
    gemini := fun _ _ => some "sum" }

/-- Concrete oracle: captions are unavailable, the audio download writes
video_audio.mp4 and succeeds, whisper succeeds, gemini returns a summary. -/
def env4 : Env :=
  { captions := fun _ => FetchResult.couldNotRetrieve
    download := fun _ => some "video_audio.mp4"
    whisperText := fun _ => some "hi"
    translate := fun _ _ _ => none
    gemini := fun _ _ => some "sum" }

/-- Concrete oracle: captions are unavailable, the audio download writes
video_audio.mp4 and succeeds, but whisper raises. -/
def env4b : Env :=
  { captions := fun _ => FetchResult.couldNotRetrieve
    download := fun _ => some "video_audio.mp4"
    whisperText := fun _ => none
    translate := fun _ _ _ => none
    gemini := fun _ _ => some "sum" }

/-- Concrete oracle: captions are unavailable and the audio download fails. -/
def env6 : Env :=
  { captions := fun _ => FetchResult.couldNotRetrieve
    download := fun _ => none
    whisperText := fun _ => none
    translate := fun _ _ _ => none
    gemini := fun _ _ => some "sum" }

/-- Concrete oracle for a full successful Hindi-to-Tamil run: captions succeed,
the translator answers Hindi-to-English with "hello" and English-to-Tamil with
"vanakkam", and gemini returns a summary. -/
def env7 : Env :=
  { captions := fun _ => FetchResult.success ["namaste"]
    download := fun _ => none
    whisperText := fun _ => none
    translate := fun _ src dst =>
      match src, dst with
      | some "hindi", "en" => some "hello"
      | some "en", "tamil" => some "vanakkam"
      | _, _ => none
    gemini := fun _ _ => some "sum" }

/-- Concrete oracle whose gemini service fails exactly when no API credential
was configured (the behavior of the lazily built google-generativeai client),
with captions succeeding. -/
def env9 : Env :=
  { captions := fun _ => FetchResult.success ["hello"]
    download := fun _ => none
    whisperText := fun _ => none
    translate := fun _ _ _ => none
    gemini := fun key _ =>
      match key with
      | none => none
      | some _ => some "sum" }

/-! Helper lemmas. -/

/-- A truthy optional string holds a non-empty string. -/
theorem getD_ne_of_falsy {o : Option String} (h : falsy o = false) :
    o.getD "" ≠ "" := by
  cases o with
  | none => simp [falsy] at h
  | some s =>
    simp [falsy] at h
    simpa using h

/-- A non-empty string is truthy. -/
theorem falsy_some_of_ne {s : String} (h : s ≠ "") : falsy (some s) = false := by
  simpa [falsy, beq_eq_false_iff_ne] using h

/-- Characters of the id class are never one of the regex metaposition
characters that the alternatives demand. -/
theorem idChar_excludes {c : Char} (h : idChar c = true) :
    c ≠ '/' ∧ c ≠ '=' ∧ c ≠ '\\' := by
  refine ⟨?_, ?_, ?_⟩ <;> rintro rfl <;> exact absurd h (by decide)

/-- A list of length eleven is an explicit eleven-element list. -/
theorem list11 (l : List Char) (hl : l.length = 11) :
    ∃ c0 c1 c2 c3 c4 c5 c6 c7 c8 c9 c10,
      l = [c0, c1, c2, c3, c4, c5, c6, c7, c8, c9, c10] := by
  cases l with
  | nil => simp at hl
  | cons c0 l =>
  cases l with
  | nil => simp at hl
  | cons c1 l =>
  cases l with
  | nil => simp at hl
  | cons c2 l =>
  cases l with
  | nil => simp at hl
  | cons c3 l =>
  cases l with
  | nil => simp at hl
  | cons c4 l =>
  cases l with
  | nil => simp at hl
  | cons c5 l =>
  cases l with
  | nil => simp at hl
  | cons c6 l =>
  cases l with
  | nil => simp at hl
  | cons c7 l =>
  cases l with
  | nil => simp at hl
  | cons c8 l =>
  cases l with
  | nil => simp at hl
  | cons c9 l =>
  cases l with
  | nil => simp at hl
  | cons c10 l =>
  cases l with
  | nil => exact ⟨c0, c1, c2, c3, c4, c5, c6, c7, c8, c9, c10, rfl⟩
  | cons c11 l =>
    simp [List.length_cons] at hl

/-- The capture group succeeds on an eleven-character class-only list and
captures all of it. -/
theorem take11_full (l : List Char) (hl : l.length = 11)
    (ha : l.all idChar = true) : take11 l = some l := by
  obtain ⟨c0, c1, c2, c3, c4, c5, c6, c7, c8, c9, c10, rfl⟩ := list11 l hl
  simp [take11, ha]

/-- The search succeeds immediately at a position where the pattern matches. -/
theorem searchFrom_eq_of_some (b : Bool) (c : Char) (l cap : List Char)
    (h : matchGroupAt b (c :: l) = some cap) : searchFrom b (c :: l) = some cap := by
  simp [searchFrom, h, orO]

/-- Core of the resolver's behavior on inputs whose first eleven characters
all lie in the id class: every non-empty alternative of the group demands a
character outside the class within its first seven positions, so only the
start-of-string alternative fires, capturing exactly the first eleven
characters. -/
theorem extract_first11_aux (s : String)
    (c0 c1 c2 c3 c4 c5 c6 c7 c8 c9 c10 : Char) (rest : List Char)
    (hs : s.data = c0 :: c1 :: c2 :: c3 :: c4 :: c5 :: c6 :: c7 :: c8 :: c9 :: c10 :: rest)
    (h : [c0, c1, c2, c3, c4, c5, c6, c7, c8, c9, c10].all idChar = true) :
    extract_video_id s
      = some (String.mk [c0, c1, c2, c3, c4, c5, c6, c7, c8, c9, c10]) := by
  simp only [List.all_cons, List.all_nil, Bool.and_eq_true, Bool.and_true] at h
  obtain ⟨h0, h1, h2, h3, h4, h5, h6, h7, h8, h9, h10⟩ := h
  have e1 := idChar_excludes h1
  have e5 := idChar_excludes h5
  have e6 := idChar_excludes h6
  have hg : matchGroupAt true
      (c0 :: c1 :: c2 :: c3 :: c4 :: c5 :: c6 :: c7 :: c8 :: c9 :: c10 :: rest)
      = some [c0, c1, c2, c3, c4, c5, c6, c7, c8, c9, c10] := by
    simp [matchGroupAt, tryAlt, matchToks, orO, take11, tokVEq, tokYoutuBe,
      tokEmbed, tokVSlash, tokWatchBsVEq, tokWatchVEq, tokShorts, tokESlash,
      e1.1, e1.2.1, e5.1, e5.2.2, e6.1, e6.2.1,
      h0, h1, h2, h3, h4, h5, h6, h7, h8, h9, h10]
  unfold extract_video_id
  rw [hs, searchFrom_eq_of_some _ _ _ _ hg]

/-- The watch?v= shape resolves to the id (via the "v=" alternative). -/
theorem shape_watch (id : String) (hl : id.data.length = 11)
    (ha : id.data.all idChar = true) :
    extract_video_id ("https://www.youtube.com/watch?v=" ++ id) = some id := by
  have htake : take11 id.data = some id.data := take11_full id.data hl ha
  have hg : matchGroupAt false ('v' :: '=' :: id.data) = some id.data := by
    simp [matchGroupAt, tryAlt, matchToks, orO, tokVEq, tokYoutuBe, tokEmbed,
      tokVSlash, tokWatchBsVEq, tokWatchVEq, tokShorts, tokESlash, htake]
  have key : searchFrom true ("https://www.youtube.com/watch?v=" ++ id).data
      = searchFrom false ('v' :: '=' :: id.data) := rfl
  unfold extract_video_id
  rw [key, searchFrom_eq_of_some _ _ _ _ hg]

/-- The youtu.be/ shape resolves to the id.  The alternative written
youtu\\.be/ in the pattern demands a literal backslash and so never fires;
the match instead comes from the "e/" alternative at the ".be/" suffix. -/
theorem shape_youtu_be (id : String) (hl : id.data.length = 11)
    (ha : id.data.all idChar = true) :
    extract_video_id ("https://youtu.be/" ++ id) = some id := by
  have htake : take11 id.data = some id.data := take11_full id.data hl ha
  have hg : matchGroupAt false ('e' :: '/' :: id.data) = some id.data := by
    simp [matchGroupAt, tryAlt, matchToks, orO, tokVEq, tokYoutuBe, tokEmbed,
      tokVSlash, tokWatchBsVEq, tokWatchVEq, tokShorts, tokESlash, htake]
  have key : searchFrom true ("https://youtu.be/" ++ id).data
      = searchFrom false ('e' :: '/' :: id.data) := rfl
  unfold extract_video_id
  rw [key, searchFrom_eq_of_some _ _ _ _ hg]

/-- The embed/ shape resolves to the id. -/
theorem shape_embed (id : String) (hl : id.data.length = 11)
    (ha : id.data.all idChar = true) :
    extract_video_id ("https://www.youtube.com/embed/" ++ id) = some id := by
  have htake : take11 id.data = some id.data := take11_full id.data hl ha
  have hg : matchGroupAt false ('e' :: 'm' :: 'b' :: 'e' :: 'd' :: '/' :: id.data)
      = some id.data := by
    simp [matchGroupAt, tryAlt, matchToks, orO, tokVEq, tokYoutuBe, tokEmbed,
      tokVSlash, tokWatchBsVEq, tokWatchVEq, tokShorts, tokESlash, htake]
  have key : searchFrom true ("https://www.youtube.com/embed/" ++ id).data
      = searchFrom false ('e' :: 'm' :: 'b' :: 'e' :: 'd' :: '/' :: id.data) := rfl
  unfold extract_video_id
  rw [key, searchFrom_eq_of_some _ _ _ _ hg]

/-- The shorts/ shape resolves to the id. -/
theorem shape_shorts (id : String) (hl : id.data.length = 11)
    (ha : id.data.all idChar = true) :
    extract_video_id ("https://www.youtube.com/shorts/" ++ id) = some id := by
  have htake : take11 id.data = some id.data := take11_full id.data hl ha
  have hg : matchGroupAt false
      ('s' :: 'h' :: 'o' :: 'r' :: 't' :: 's' :: '/' :: id.data) = some id.data := by
    simp [matchGroupAt, tryAlt, matchToks, orO, tokVEq, tokYoutuBe, tokEmbed,
      tokVSlash, tokWatchBsVEq, tokWatchVEq, tokShorts, tokESlash, htake]
  have key : searchFrom true ("https://www.youtube.com/shorts/" ++ id).data
      = searchFrom false ('s' :: 'h' :: 'o' :: 'r' :: 't' :: 's' :: '/' :: id.data) := rfl
  unfold extract_video_id
  rw [key, searchFrom_eq_of_some _ _ _ _ hg]

/-- The v/ shape resolves to the id. -/
theorem shape_v_slash (id : String) (hl : id.data.length = 11)
    (ha : id.data.all idChar = true) :
    extract_video_id ("https://www.youtube.com/v/" ++ id) = some id := by
  have htake : take11 id.data = some id.data := take11_full id.data hl ha
  have hg : matchGroupAt false ('v' :: '/' :: id.data) = some id.data := by
    simp [matchGroupAt, tryAlt, matchToks, orO, tokVEq, tokYoutuBe, tokEmbed,
      tokVSlash, tokWatchBsVEq, tokWatchVEq, tokShorts, tokESlash, htake]
  have key : searchFrom true ("https://www.youtube.com/v/" ++ id).data
      = searchFrom false ('v' :: '/' :: id.data) := rfl
  unfold extract_video_id
  rw [key, searchFrom_eq_of_some _ _ _ _ hg]

/-- The e/ shape resolves to the id. -/
theorem shape_e_slash (id : String) (hl : id.data.length = 11)
    (ha : id.data.all idChar = true) :
    extract_video_id ("https://www.youtube.com/e/" ++ id) = some id := by
  have htake : take11 id.data = some id.data := take11_full id.data hl ha
  have hg : matchGroupAt false ('e' :: '/' :: id.data) = some id.data := by
    simp [matchGroupAt, tryAlt, matchToks, orO, tokVEq, tokYoutuBe, tokEmbed,
      tokVSlash, tokWatchBsVEq, tokWatchVEq, tokShorts, tokESlash, htake]
  have key : searchFrom true ("https://www.youtube.com/e/" ++ id).data
      = searchFrom false ('e' :: '/' :: id.data) := rfl
  unfold extract_video_id
  rw [key, searchFrom_eq_of_some _ _ _ _ hg]

/-- A bare eleven-character id resolves to itself (via the start-of-string
alternative). -/
theorem shape_bare (id : String) (hl : id.data.length = 11)
    (ha : id.data.all idChar = true) : extract_video_id id = some id := by
  obtain ⟨c0, c1, c2, c3, c4, c5, c6, c7, c8, c9, c10, hdl⟩ := list11 id.data hl
  have haux := extract_first11_aux id c0 c1 c2 c3 c4 c5 c6 c7 c8 c9 c10 []
    (by rw [hdl]) (by rw [← hdl]; exact ha)
  rw [haux, ← hdl]

/-- The summary stage appends only summarize and translate events. -/
theorem summaryStage_trace_all (env : Env) (key : Option String)
    (sl prompt t : String) (src : Source) (tr : List Event) (f : Bool)
    (p : Event → Bool)
    (hsum : ∀ s, p (Event.summarize s) = true)
    (htr : ∀ a b, p (Event.translate a b) = true)
    (h : tr.all p = true) :
    ((summaryStage env key sl prompt t src tr f).trace).all p = true := by
  unfold summaryStage
  dsimp only
  split
  · simp [List.all_append, h, hsum]
  · split
    · split
      · simp [List.all_append, h, hsum, htr]
      · simp [List.all_append, h, hsum, htr]
    · simp [List.all_append, h, hsum]

/-- The translate-then-summarize stage appends only summarize and translate
events. -/
theorem finishStage_trace_all (env : Env) (key : Option String)
    (vl sl prompt t : String) (src : Source) (tr : List Event) (f : Bool)
    (p : Event → Bool)
    (hsum : ∀ s, p (Event.summarize s) = true)
    (htr : ∀ a b, p (Event.translate a b) = true)
    (h : tr.all p = true) :
    ((finishStage env key vl sl prompt t src tr f).trace).all p = true := by
  unfold finishStage
  dsimp only
  split
  · split
    · simp [List.all_append, h, htr]
    · exact summaryStage_trace_all env key sl prompt _ src _ f p hsum htr
        (by simp [List.all_append, h, htr])
  · exact summaryStage_trace_all env key sl prompt t src tr f p hsum htr h

/-- The summary stage only ever extends the trace it is given. -/
theorem summaryStage_trace_ext (env : Env) (key : Option String)
    (sl prompt t : String) (src : Source) (tr : List Event) (f : Bool) :
    ∃ ex, (summaryStage env key sl prompt t src tr f).trace = tr ++ ex := by
  unfold summaryStage
  dsimp only
  split
  · exact ⟨_, rfl⟩
  · split
    · split
      · exact ⟨_, by rw [List.append_assoc]⟩
      · exact ⟨_, by rw [List.append_assoc]⟩
    · exact ⟨_, rfl⟩

/-- The translate-then-summarize stage only ever extends the trace it is
given. -/
theorem finishStage_trace_ext (env : Env) (key : Option String)
    (vl sl prompt t : String) (src : Source) (tr : List Event) (f : Bool) :
    ∃ ex, (finishStage env key vl sl prompt t src tr f).trace = tr ++ ex := by
  unfold finishStage
  dsimp only
  split
  · split
    · exact ⟨_, rfl⟩
    · obtain ⟨ex, hex⟩ := summaryStage_trace_ext env key sl prompt _ src
        (tr ++ [Event.translate (pyLower vl) "en"]) f
      exact ⟨_, by rw [hex, List.append_assoc]⟩
  · exact summaryStage_trace_ext env key sl prompt t src tr f

/-! Claim theorems. -/

/-- C10: for every input string whose first eleven characters all lie in
[A-Za-z0-9_-] — including strings that are not any recognized URL shape, such
as a bare twelve-character token — extract_video_id succeeds and returns the
first eleven characters of the input instead of failing with InvalidUrlError
(the start-of-string alternative of the pattern fires). -/
theorem extract_video_id_first11 (s : String)
    (c0 c1 c2 c3 c4 c5 c6 c7 c8 c9 c10 : Char) (rest : List Char)
    (hs : s.data = c0 :: c1 :: c2 :: c3 :: c4 :: c5 :: c6 :: c7 :: c8 :: c9 :: c10 :: rest)
    (h : [c0, c1, c2, c3, c4, c5, c6, c7, c8, c9, c10].all idChar = true) :
    extract_video_id s
      = some (String.mk [c0, c1, c2, c3, c4, c5, c6, c7, c8, c9, c10]) :=
  extract_first11_aux s c0 c1 c2 c3 c4 c5 c6 c7 c8 c9 c10 rest hs h

/-- Witness for C10 at the twelve-character token "abcdefghijkl": the
resolver returns its first eleven characters. -/
theorem extract_video_id_first11_witness :
    ("abcdefghijkl" : String).data
        = 'a' :: 'b' :: 'c' :: 'd' :: 'e' :: 'f' :: 'g' :: 'h' :: 'i' :: 'j' :: 'k' :: ['l']
    ∧ ['a', 'b', 'c', 'd', 'e', 'f', 'g', 'h', 'i', 'j', 'k'].all idChar = true
    ∧ extract_video_id "abcdefghijkl"
        = some (String.mk ['a', 'b', 'c', 'd', 'e', 'f', 'g', 'h', 'i', 'j', 'k']) :=
  ⟨rfl, by decide,
    extract_video_id_first11 "abcdefghijkl" 'a' 'b' 'c' 'd' 'e' 'f' 'g' 'h' 'i'
      'j' 'k' ['l'] rfl (by decide)⟩

/-- C5 counterexample: "abcdefghijkl" is a twelve-character token, which is
none of the recognized URL shapes (in particular not a bare eleven-character
token), yet extract_video_id does not fail with InvalidUrlError on this
malformed input: it succeeds with the truncated first eleven characters. -/
theorem extract_video_id_twelve_char_cex :
    extract_video_id "abcdefghijkl" = some "abcdefghijk"
    ∧ ("abcdefghijkl" : String).length = 12 := by
  exact ⟨rfl, rfl⟩

/-- C5 (amended): for every eleven-character identifier drawn from
[A-Za-z0-9_-], each recognized URL shape resolves to that identifier, and the
spec's example resolves to dQw4w9WgXcQ; inputs matching no alternative (such
as "???") fail with InvalidUrlError, but malformed inputs whose first eleven
characters lie in the class succeed with a spurious identifier instead of
failing (see the counterexample). -/
theorem extract_video_id_shapes (id : String) (hl : id.data.length = 11)
    (ha : id.data.all idChar = true) :
    (extract_video_id ("https://www.youtube.com/watch?v=" ++ id) = some id
      ∧ extract_video_id ("https://youtu.be/" ++ id) = some id
      ∧ extract_video_id ("https://www.youtube.com/embed/" ++ id) = some id
      ∧ extract_video_id ("https://www.youtube.com/shorts/" ++ id) = some id
      ∧ extract_video_id ("https://www.youtube.com/v/" ++ id) = some id
      ∧ extract_video_id ("https://www.youtube.com/e/" ++ id) = some id
      ∧ extract_video_id id = some id)
    ∧ extract_video_id "https://youtu.be/dQw4w9WgXcQ?feature=share"
        = some "dQw4w9WgXcQ"
    ∧ extract_video_id "???" = none :=
  ⟨⟨shape_watch id hl ha, shape_youtu_be id hl ha, shape_embed id hl ha,
    shape_shorts id hl ha, shape_v_slash id hl ha, shape_e_slash id hl ha,
    shape_bare id hl ha⟩, rfl, rfl⟩

/-- Witness for C5 at the identifier dQw4w9WgXcQ on the watch?v= shape. -/
theorem extract_video_id_shapes_witness :
    ("dQw4w9WgXcQ" : String).data.length = 11
    ∧ ("dQw4w9WgXcQ" : String).data.all idChar = true
    ∧ extract_video_id ("https://www.youtube.com/watch?v=" ++ "dQw4w9WgXcQ")
        = some "dQw4w9WgXcQ" :=
  ⟨by decide, by decide,
    (extract_video_id_shapes "dQw4w9WgXcQ" (by decide) (by decide)).1.1⟩

/-- C1: whenever the captions fetch succeeds with non-empty text, the
transcript pipeline reaches Done with provenance Captions (the acquisition
stage returns the joined captions text without extending the trace), and in
the whole run neither download_audio nor process_audio_with_whisper is ever
invoked (no such event in the trace). -/
theorem captions_success_no_fallback (env : Env) (key : Option String)
    (link vl sl : String) (n : Nat) (fmt : String) (video_id : String)
    (entries : List String)
    (hlink : link ≠ "") (hvid : extract_video_id link = some video_id)
    (hcap : env.captions video_id = FetchResult.success entries)
    (hne : String.intercalate " " entries ≠ "") :
    acquireStage env link (extract_transcript_details env video_id)
        [Event.fetchCaptions video_id]
      = Sum.inr (String.intercalate " " entries, Source.captions,
          [Event.fetchCaptions video_id], false)
    ∧ (runGenerate env key link vl sl n fmt).trace.all notFallbackEvent = true := by
  have h1 : extract_transcript_details env video_id
      = some (String.intercalate " " entries) := by
    simp [extract_transcript_details, hcap]
  have hfa : falsy (some (String.intercalate " " entries)) = false :=
    falsy_some_of_ne hne
  have hacq : acquireStage env link (extract_transcript_details env video_id)
      [Event.fetchCaptions video_id]
      = Sum.inr (String.intercalate " " entries, Source.captions,
          [Event.fetchCaptions video_id], false) := by
    rw [h1]
    simp [acquireStage, hfa]
  refine ⟨hacq, ?_⟩
  unfold runGenerate
  rw [if_neg hlink]
  simp only [hvid, hacq]
  exact finishStage_trace_all env key vl sl _ _ Source.captions
    [Event.fetchCaptions video_id] false notFallbackEvent (fun _ => rfl)
    (fun _ _ => rfl) (by simp [notFallbackEvent])

/-- Witness for C1: concrete run with captions text "hello world". -/
theorem captions_success_no_fallback_witness :
    ("dQw4w9WgXcQ" : String) ≠ ""
    ∧ String.intercalate " " ["hello world"] ≠ ""
    ∧ (runGenerate env1 none "dQw4w9WgXcQ" "English" "English" 100
        "Paragraphs").trace.all notFallbackEvent = true :=
  ⟨by decide, by decide,
    (captions_success_no_fallback env1 none "dQw4w9WgXcQ" "English" "English"
      100 "Paragraphs" "dQw4w9WgXcQ" ["hello world"] (by decide) (by decide)
      rfl (by decide)).2⟩

/-- C6: whenever the captions are unavailable and the audio download fails,
the run terminates with the audio-download failure ("Failed to download
audio", the AudioDownloadError of the spec) and process_audio_with_whisper is
never invoked. -/
theorem download_failure_stops_before_whisper (env : Env) (key : Option String)
    (link vl sl : String) (n : Nat) (fmt : String) (video_id : String)
    (hlink : link ≠ "") (hvid : extract_video_id link = some video_id)
    (hcap : env.captions video_id = FetchResult.couldNotRetrieve)
    (hdl : env.download link = none) :
    runGenerate env key link vl sl n fmt
      = ⟨RunResult.failedAudioDownload,
          [Event.fetchCaptions video_id, Event.downloadAudio link], false⟩
    ∧ ∀ p, Event.whisper p ∉ (runGenerate env key link vl sl n fmt).trace := by
  have h1 : extract_transcript_details env video_id = none := by
    simp [extract_transcript_details, hcap]
  have hmain : runGenerate env key link vl sl n fmt
      = ⟨RunResult.failedAudioDownload,
          [Event.fetchCaptions video_id, Event.downloadAudio link], false⟩ := by
    unfold runGenerate
    rw [if_neg hlink]
    simp only [hvid]
    simp [acquireStage, h1, falsy, download_audio, hdl]
  refine ⟨hmain, ?_⟩
  intro p
  rw [hmain]
  simp

/-- C2 counterexample: when the captions fetch fails with an unexpected
error that is neither an unavailability signal nor empty text, the run does
not terminate with a TranscriptFetchError (no such terminal even exists): it
enters the audio fallback, invoking download_audio, and here completes via
local transcription. -/
theorem captions_error_enters_fallback_cex :
    env2.captions "dQw4w9WgXcQ" = FetchResult.otherError
    ∧ (runGenerate env2 none "dQw4w9WgXcQ" "English" "English" 100
        "Paragraphs").result = RunResult.done "sum" Source.localTranscription
    ∧ Event.downloadAudio "dQw4w9WgXcQ"
        ∈ (runGenerate env2 none "dQw4w9WgXcQ" "English" "English" 100
            "Paragraphs").trace := by
  refine ⟨rfl, by decide, by decide⟩

/-- C2 (amended): every captions-fetch failure that is not an unavailability
signal is treated exactly like unavailability: the run proceeds straight into
the audio fallback (download_audio is invoked right after the captions
fetch); no TranscriptFetchError terminal exists. -/
theorem captions_error_enters_fallback (env : Env) (key : Option String)
    (link vl sl : String) (n : Nat) (fmt : String) (video_id : String)
    (hlink : link ≠ "") (hvid : extract_video_id link = some video_id)
    (hcap : env.captions video_id = FetchResult.otherError) :
    ∃ rest, (runGenerate env key link vl sl n fmt).trace
      = Event.fetchCaptions video_id :: Event.downloadAudio link :: rest := by
  have h1 : extract_transcript_details env video_id = none := by
    simp [extract_transcript_details, hcap]
  cases hdl : env.download link with
  | none =>
    have hacq : acquireStage env link (extract_transcript_details env video_id)
        [Event.fetchCaptions video_id]
        = Sum.inl ⟨RunResult.failedAudioDownload,
            [Event.fetchCaptions video_id, Event.downloadAudio link], false⟩ := by
      rw [h1]
      simp [acquireStage, falsy, download_audio, hdl]
    unfold runGenerate
    rw [if_neg hlink]
    simp only [hvid, hacq]
    exact ⟨[], rfl⟩
  | some p =>
    cases h2 : falsy (process_audio_with_whisper env p) with
    | true =>
      have hacq : acquireStage env link (extract_transcript_details env video_id)
          [Event.fetchCaptions video_id]
          = Sum.inl ⟨RunResult.failedTranscription,
              [Event.fetchCaptions video_id, Event.downloadAudio link,
                Event.whisper p], true⟩ := by
        rw [h1]
        simp [acquireStage, show falsy (none : Option String) = true from rfl,
          download_audio, hdl, h2]
      unfold runGenerate
      rw [if_neg hlink]
      simp only [hvid, hacq]
      exact ⟨[Event.whisper p], rfl⟩
    | false =>
      have hacq : acquireStage env link (extract_transcript_details env video_id)
          [Event.fetchCaptions video_id]
          = Sum.inr ((process_audio_with_whisper env p).getD "",
              Source.localTranscription,
              [Event.fetchCaptions video_id, Event.downloadAudio link,
                Event.whisper p], true) := by
        rw [h1]
        simp [acquireStage, show falsy (none : Option String) = true from rfl,
          download_audio, hdl, h2]
      unfold runGenerate
      rw [if_neg hlink]
      simp only [hvid, hacq]
      obtain ⟨ex, hex⟩ := finishStage_trace_ext env key vl sl
        (summary_prompt fmt n) ((process_audio_with_whisper env p).getD "")
        Source.localTranscription
        [Event.fetchCaptions video_id, Event.downloadAudio link, Event.whisper p]
        true
      rw [hex]
      exact ⟨Event.whisper p :: ex, rfl⟩

/-- Witness for C2: concrete run whose captions fetch raises an unexpected
error. -/
theorem captions_error_enters_fallback_witness :
    env2.captions "dQw4w9WgXcQ" = FetchResult.otherError
    ∧ Event.downloadAudio "dQw4w9WgXcQ"
        ∈ (runGenerate env2 none "dQw4w9WgXcQ" "English" "English" 100
            "Paragraphs").trace := by
  refine ⟨rfl, ?_⟩
  obtain ⟨rest, h⟩ := captions_error_enters_fallback env2 none "dQw4w9WgXcQ"
    "English" "English" 100 "Paragraphs" "dQw4w9WgXcQ" (by decide) (by decide) rfl
  rw [h]
  simp

/-- C3 counterexample: a whitespace-only captions text (the single space) is
treated as a successful transcript, not as a failure: the acquisition stage
returns it as a Done-with-Captions transcript and the whole run completes
with it. -/
theorem whitespace_transcript_success_cex :
    env3.captions "dQw4w9WgXcQ" = FetchResult.success [" "]
    ∧ acquireStage env3 "dQw4w9WgXcQ"
        (extract_transcript_details env3 "dQw4w9WgXcQ")
        [Event.fetchCaptions "dQw4w9WgXcQ"]
      = Sum.inr (" ", Source.captions, [Event.fetchCaptions "dQw4w9WgXcQ"], false)
    ∧ (" " : String) ≠ "" ∧ (" " : String).data = [' ']
    ∧ (runGenerate env3 none "dQw4w9WgXcQ" "English" "English" 100
        "Paragraphs").result = RunResult.done "sum" Source.captions := by
  refine ⟨rfl, by decide, by decide, rfl, by decide⟩

/-- C3 (amended): the transcript pipeline never succeeds with empty text -
empty (or absent) text from the captions source or from the local transcriber
always diverts to the fallback or fails - but whitespace-only non-empty text
is treated as success (see the counterexample). -/
theorem done_transcript_nonempty (env : Env) (link : String)
    (t1 : Option String) (tr : List Event) (t : String) (src : Source)
    (tr2 : List Event) (f : Bool)
    (h : acquireStage env link t1 tr = Sum.inr (t, src, tr2, f)) : t ≠ "" := by
  unfold acquireStage at h
  cases h1 : falsy t1 with
  | false =>
    simp [h1] at h
    obtain ⟨ht, -⟩ := h
    exact ht ▸ getD_ne_of_falsy h1
  | true =>
    simp only [h1, if_true] at h
    cases hdl : download_audio env link with
    | none => simp [hdl] at h
    | some p =>
      simp only [hdl] at h
      cases h2 : falsy (process_audio_with_whisper env p) with
      | true => simp [h2] at h
      | false =>
        simp [h2] at h
        obtain ⟨ht, -⟩ := h
        exact ht ▸ getD_ne_of_falsy h2

/-- Witness for C3: concrete successful acquisition whose text is non-empty. -/
theorem done_transcript_nonempty_witness :
    acquireStage env1 "dQw4w9WgXcQ" (some "hello world") []
      = Sum.inr ("hello world", Source.captions, [], false)
    ∧ ("hello world" : String) ≠ "" :=
  ⟨by decide,
    done_transcript_nonempty env1 "dQw4w9WgXcQ" (some "hello world") []
      "hello world" Source.captions [] false (by decide)⟩

/-- C4: the temporary audio file video_audio.mp4 written by the audio
fallback is never deleted - the script contains no cleanup - so it is still
on disk when the run terminates, on the successful exit path (env4) and on
the failing, whisper-error exit path (env4b) alike. -/
theorem audio_file_never_deleted :
    (runGenerate env4 none "dQw4w9WgXcQ" "English" "English" 100
        "Paragraphs").result = RunResult.done "sum" Source.localTranscription
    ∧ (runGenerate env4 none "dQw4w9WgXcQ" "English" "English" 100
        "Paragraphs").audioFileOnDisk = true
    ∧ (runGenerate env4b none "dQw4w9WgXcQ" "English" "English" 100
        "Paragraphs").result = RunResult.failedTranscription
    ∧ (runGenerate env4b none "dQw4w9WgXcQ" "English" "English" 100
        "Paragraphs").audioFileOnDisk = true := by
  refine ⟨by decide, by decide, by decide, by decide⟩

/-- Witness for C6: concrete run with unavailable captions and a failing
download. -/
theorem download_failure_stops_before_whisper_witness :
    env6.captions "dQw4w9WgXcQ" = FetchResult.couldNotRetrieve
    ∧ env6.download "dQw4w9WgXcQ" = none
    ∧ runGenerate env6 none "dQw4w9WgXcQ" "English" "English" 100 "Paragraphs"
        = ⟨RunResult.failedAudioDownload,
            [Event.fetchCaptions "dQw4w9WgXcQ", Event.downloadAudio "dQw4w9WgXcQ"],
            false⟩ :=
  ⟨rfl, rfl,
    (download_failure_stops_before_whisper env6 none "dQw4w9WgXcQ" "English"
      "English" 100 "Paragraphs" "dQw4w9WgXcQ" (by decide) (by decide) rfl
      rfl).1⟩

/-- C7: in a full successful run with video language Hindi and summary
language Tamil, translate is invoked exactly twice - once Hindi (lowercased)
to English before the summarization call and once English to Tamil
(lowercased) after it, in that order with nothing in between but the one
summarization call - as the complete trace shows. -/
theorem hindi_tamil_two_translations (env : Env) (key : Option String)
    (link : String) (n : Nat) (fmt : String) (video_id : String)
    (entries : List String) (e s t2 : String)
    (hlink : link ≠ "") (hvid : extract_video_id link = some video_id)
    (hcap : env.captions video_id = FetchResult.success entries)
    (hne : String.intercalate " " entries ≠ "")
    (htr1 : env.translate (String.intercalate " " entries) (some "hindi") "en"
      = some e)
    (hee : e ≠ "")
    (hgem : env.gemini key (summary_prompt fmt n ++ e) = some s)
    (hs : s ≠ "")
    (htr2 : env.translate s (some "en") "tamil" = some t2)
    (ht2 : t2 ≠ "") :
    runGenerate env key link "Hindi" "Tamil" n fmt
      = ⟨RunResult.done t2 Source.captions,
          [Event.fetchCaptions video_id, Event.translate "hindi" "en",
            Event.summarize (summary_prompt fmt n ++ e),
            Event.translate "en" "tamil"], false⟩ := by
  have h1 : extract_transcript_details env video_id
      = some (String.intercalate " " entries) := by
    simp [extract_transcript_details, hcap]
  have hacq : acquireStage env link (extract_transcript_details env video_id)
      [Event.fetchCaptions video_id]
      = Sum.inr (String.intercalate " " entries, Source.captions,
          [Event.fetchCaptions video_id], false) := by
    rw [h1]
    simp [acquireStage, falsy_some_of_ne hne]
  have htt1 : translate_text env (String.intercalate " " entries) "hindi" "en"
      = some e := by
    simp [translate_text, hne, show pyLower "hindi" = "hindi" from rfl, htr1]
  have htt2 : translate_text env s "en" "tamil" = some t2 := by
    simp [translate_text, hs, show pyLower "en" = "en" from rfl, htr2]
  unfold runGenerate
  rw [if_neg hlink]
  simp only [hvid, hacq]
  unfold finishStage summaryStage
  simp [generate_genmini_content, show pyLower "Hindi" = "hindi" from rfl,
    show pyLower "Tamil" = "tamil" from rfl, htt1, htt2, hgem,
    falsy_some_of_ne hee, falsy_some_of_ne hs, falsy_some_of_ne ht2]

/-- Witness for C7: concrete Hindi-to-Tamil run with all services
succeeding. -/
theorem hindi_tamil_two_translations_witness :
    env7.translate (String.intercalate " " ["namaste"]) (some "hindi") "en"
        = some "hello"
    ∧ env7.gemini none (summary_prompt "Paragraphs" 100 ++ "hello") = some "sum"
    ∧ env7.translate "sum" (some "en") "tamil" = some "vanakkam"
    ∧ runGenerate env7 none "dQw4w9WgXcQ" "Hindi" "Tamil" 100 "Paragraphs"
        = ⟨RunResult.done "vanakkam" Source.captions,
            [Event.fetchCaptions "dQw4w9WgXcQ", Event.translate "hindi" "en",
              Event.summarize (summary_prompt "Paragraphs" 100 ++ "hello"),
              Event.translate "en" "tamil"], false⟩ :=
  ⟨rfl, rfl, rfl,
    hindi_tamil_two_translations env7 none "dQw4w9WgXcQ" 100 "Paragraphs"
      "dQw4w9WgXcQ" ["namaste"] "hello" "sum" "vanakkam" (by decide) (by decide)
      rfl (by decide) rfl (by decide) rfl (by decide) rfl (by decide)⟩

/-- C8: translate_text rejects empty input before any external call,
producing no translated text (the TranslationError of the spec), and the
string handed to the hosted summarization model is exactly the fixed
instruction template - naming the selected format and the target word
count - followed by the source text. -/
theorem translate_empty_and_prompt_shape (env : Env) (key : Option String)
    (src_lang dest_lang fmt t : String) (n : Nat) :
    translate_text env "" src_lang dest_lang = none
    ∧ generate_genmini_content env key t (summary_prompt fmt n)
        = env.gemini key (base_prompt_head ++ fmt ++ base_prompt_tail ++ " in "
            ++ toString n ++ " words:" ++ t) :=
  ⟨rfl, rfl⟩

/-- C9 counterexample: with every environment variable absent, startup
completes normally storing no credential (os.getenv returns None and
genai.configure defers validation to the lazily built client), and the
missing credential then surfaces as a per-request summary-generation
failure - refuting that absence is a fatal startup error never surfaced
per-request. -/
theorem missing_key_per_request_cex :
    startup (fun _ => none) = none
    ∧ (runGenerate env9 (startup (fun _ => none)) "dQw4w9WgXcQ" "English"
        "English" 100 "Paragraphs").result = RunResult.failedSummarization := by
  refine ⟨rfl, by decide⟩

/-- C9 (amended): the credential is read exactly once, at module
initialization, as the value of the environment variable GOOGLE_API_KEY;
its absence is not detected at startup, and whenever the summarization
service errors (as the lazily validated client does when no credential was
configured) the run fails per-request with the summary-generation failure. -/
theorem missing_key_surfaces_per_request (getenv : String → Option String)
    (env : Env) (link sl : String) (n : Nat) (fmt : String) (video_id : String)
    (entries : List String)
    (hlink : link ≠ "") (hvid : extract_video_id link = some video_id)
    (hcap : env.captions video_id = FetchResult.success entries)
    (hne : String.intercalate " " entries ≠ "")
    (hgem : env.gemini (startup getenv)
      (summary_prompt fmt n ++ String.intercalate " " entries) = none) :
    startup getenv = getenv "GOOGLE_API_KEY"
    ∧ (runGenerate env (startup getenv) link "English" sl n fmt).result
        = RunResult.failedSummarization := by
  refine ⟨rfl, ?_⟩
  have h1 : extract_transcript_details env video_id
      = some (String.intercalate " " entries) := by
    simp [extract_transcript_details, hcap]
  have hacq : acquireStage env link (extract_transcript_details env video_id)
      [Event.fetchCaptions video_id]
      = Sum.inr (String.intercalate " " entries, Source.captions,
          [Event.fetchCaptions video_id], false) := by
    rw [h1]
    simp [acquireStage, falsy_some_of_ne hne]
  unfold runGenerate
  rw [if_neg hlink]
  simp only [hvid, hacq]
  unfold finishStage summaryStage
  simp [generate_genmini_content, hgem,
    show falsy (none : Option String) = true from rfl]

/-- Witness for C9: concrete run with an empty environment. -/
theorem missing_key_surfaces_per_request_witness :
    env9.captions "dQw4w9WgXcQ" = FetchResult.success ["hello"]
    ∧ env9.gemini (startup (fun _ => none))
        (summary_prompt "Paragraphs" 100 ++ String.intercalate " " ["hello"])
        = none
    ∧ (runGenerate env9 (startup (fun _ => none)) "dQw4w9WgXcQ" "English"
        "English" 100 "Paragraphs").result = RunResult.failedSummarization :=
  ⟨rfl, rfl,
    (missing_key_surfaces_per_request (fun _ => none) env9 "dQw4w9WgXcQ"
      "English" 100 "Paragraphs" "dQw4w9WgXcQ" ["hello"] (by decide)
      (by decide) rfl (by decide) rfl).2⟩

end YTApp
